import Mathlib

/-!
Verification of the SoulBot conversation-session logic.

This file gives a shallow embedding of the session-manager functions of the
SoulBot repository (the variants in `final.py` and `soul.py`, whose chat logic
is identical): per-message truncation (`truncate_message`), context-window
construction (`prepare_recent_history`), the truncation-detection heuristic
(`_is_likely_truncated`, embedded here as `is_likely_truncated`), and the
composite chat turn (`generate_response`) with its bounded continuation loop.

Modelling conventions:
* Python strings are embedded as `List Char`; `len`, slices, `strip`,
  `rstrip`, `lstrip`, `endswith` and `in` become the corresponding list
  operations (`pyStrip` and friends model `str.strip` for the six ASCII
  whitespace characters that Python strips).
* Chat messages (Python dicts `{role, content}`) become the `Message`
  structure; every message constructed by the program carries both keys, so
  the `dict.get` defaults in the source are never exercised.
* The external model backend (`ollama.chat`, wrapped by `ollama_chat`) is an
  oracle `Nat → List Message → ChatResult`: its first argument is the index of
  the backend call within one `generate_response` turn (0 = primary request,
  1 and 2 = continuation requests) and the second is the message list sent.
  Generation options (token budgets, temperature, ...) do not influence the
  control flow under study and are elided.
* A Python run that raises an uncaught exception (the `IndexError` reachable
  in `_is_likely_truncated`, or the `KeyError` reached when an error payload
  carries a falsy message) is modelled as the result `none`.
-/

namespace Soulbot

/-- The six ASCII whitespace characters removed by Python `str.strip()`. -/
def pyIsSpace (c : Char) : Bool :=
  c = ' ' || c = '\t' || c = '\n' || c = '\r' || c = Char.ofNat 11 || c = Char.ofNat 12

/-- Python `str.lstrip()`. -/
def pyLstrip (l : List Char) : List Char := l.dropWhile pyIsSpace

/-- Python `str.rstrip()`. -/
def pyRstrip (l : List Char) : List Char := (l.reverse.dropWhile pyIsSpace).reverse

/-- Python `str.strip()` (both ends). -/
def pyStrip (l : List Char) : List Char := pyLstrip (pyRstrip l)

/-- A chat message: Python dict `{"role": ..., "content": ...}`. -/
structure Message where
  role : String
  content : List Char
deriving DecidableEq

/-- `MAX_CHAT_CONTEXT_HISTORY = 6` (final.py line 16, soul.py line 19). -/
def MAX_CHAT_CONTEXT_HISTORY : Nat := 6

/-- `MAX_MESSAGE_CHARS = 800` (final.py line 22, soul.py line 25). -/
def MAX_MESSAGE_CHARS : Nat := 800

/-- `truncate_message` (final.py lines 108-114, soul.py lines 128-134):
keep a message unchanged when it fits in `max_chars`, otherwise keep the
first and last `max_chars // 2 - 10` characters joined by a visible marker.
Python `msg[:k]` is `List.take k`, and `msg[-k:]` is
`List.drop (msg.length - k)` (both clamp the same way for the arguments that
occur in this program). -/
def truncate_message (msg : List Char) (max_chars : Nat := MAX_MESSAGE_CHARS) : List Char :=
  if msg.length ≤ max_chars then msg
  else
    msg.take (max_chars / 2 - 10) ++ "\n...\n".toList
      ++ msg.drop (msg.length - (max_chars / 2 - 10))

/-- `prepare_recent_history` (final.py lines 117-123, soul.py lines 137-143):
take the last `max_items` messages of the log (`history[-max_items:]`) and
truncate each content with `truncate_message` at its default budget. -/
def prepare_recent_history (history : List Message)
    (max_items : Nat := MAX_CHAT_CONTEXT_HISTORY) : List Message :=
  (history.drop (history.length - max_items)).map
    (fun m => { role := m.role, content := truncate_message m.content })

/-- The apostrophe character, U+0027. -/
def apostrophe : Char := Char.ofNat 39

/-- Content of `SOULBOT_SYSTEM_MESSAGE` (soul.py lines 110-118). -/
def soulbotIdentityContent : List Char :=
  "You are SoulBot — an AI emotional wellness companion. Your name is always ".toList
    ++ [apostrophe] ++ "SoulBot".toList ++ [apostrophe]
    ++ ". If the user asks your name, who you are, or what you are, reply EXACTLY: \"I".toList
    ++ [apostrophe]
    ++ "m SoulBot — your AI emotional wellness companion.\" Speak gently, supportively, and warmly.".toList

/-- `SOULBOT_SYSTEM_MESSAGE` (soul.py lines 110-118): the system-role identity
message, inserted once at position 0 of the conversation history at app start
(soul.py line 122). -/
def SOULBOT_SYSTEM_MESSAGE : Message :=
  { role := "system", content := soulbotIdentityContent }

/-- The three ASCII dots checked by `s.endswith("...")`. -/
def asciiEllipsis : List Char := ['.', '.', '.']

/-- The single Unicode ellipsis glyph checked by `s.endswith("…")`. -/
def unicodeEllipsis : Char := '…'

/-- The characters of the Python string `".!?\"'”””"` used in
`s[-1] not in ".!?\"'”””"` (final.py line 190, soul.py line 208); the
right-double-quotation mark appears three times in the source string, which
does not change membership. -/
def sentenceFinalChars : List Char :=
  ['.', '!', '?', '"', apostrophe, '”', '”', '”']

/-- The characters of the Python string `")]}"` used in `s[-1] in ")]}"`
(final.py line 192, soul.py line 210). -/
def closingBracketChars : List Char := [')', ']', Char.ofNat 125]

/-- `_is_likely_truncated` (final.py lines 180-195, soul.py lines 198-213).
Returns `none` where the Python code raises `IndexError`: when the text has
length ≥ 30 but strips to the empty string, `s[-1]` is evaluated on `""`. -/
def is_likely_truncated (text : List Char) : Option Bool :=
  if text = [] ∨ text.length < 30 then some false
  else
    let s := pyStrip text
    if asciiEllipsis.isSuffixOf s || [unicodeEllipsis].isSuffixOf s then some true
    else
      match s.getLast? with
      | none => none
      | some c =>
        if !(sentenceFinalChars.contains c) then
          if closingBracketChars.contains c then some false else some true
        else some false

/-- Restatement of the truncation heuristic following the words of the claim:
true when the stripped text ends with an ellipsis; otherwise false exactly
when the last character is sentence-terminal punctuation or a closing
bracket. (The code strips both ends while the claim speaks of trimming
trailing whitespace; for the suffix and last-character tests the two agree
whenever the stripped text is nonempty.) Used only to compare the code
against the claim's wording. -/
def claim_truncation_flag (text : List Char) : Bool :=
  let s := pyStrip text
  if asciiEllipsis.isSuffixOf s || [unicodeEllipsis].isSuffixOf s then true
  else
    match s.getLast? with
    | none => false
    | some c =>
      if sentenceFinalChars.contains c || closingBracketChars.contains c then false
      else true

/-- Result of one `ollama_chat` call (final.py lines 129-141): either the
reply content `resp['message']['content']`, or the error payload
`{"error": str(e)}`. -/
inductive ChatResult where
  | ok (content : List Char)
  | err (msg : List Char)
deriving DecidableEq

/-- Which `return` statement of `generate_response` produced the turn's
result: the fixed offline notice (line 200), the primary-failure string
`f"Error: {e}"` (line 216), or a successful reply (line 238). -/
inductive GenReturn where
  | offline
  | error (e : List Char)
  | reply (r : List Char)
deriving DecidableEq

/-- The fixed offline string returned when the availability flag is false
(final.py line 200, soul.py line 218). -/
def offlineMessage : List Char := "Ollama is offline. Please start the server.".toList

/-- The string value actually returned to the caller for each outcome. -/
def GenReturn.text : GenReturn → List Char
  | .offline => offlineMessage
  | .error e => "Error: ".toList ++ e
  | .reply r => r

/-- `cont_prompt` (final.py line 225, soul.py line 243), reproduced exactly,
including the missing space after `content.`. -/
def continuationPrompt : List Char :=
  ("Please continue the previous response only, and finish the remaining content."
    ++ "If the previous response was complete, respond with nothing.").toList

/-- The continuation loop of `generate_response` (final.py lines 221-235):
`while _is_likely_truncated(ai_response) and attempts < 2`. The loop is
embedded with an explicit structural counter `remaining = 2 - attempts`, so
the guard `attempts < 2` becomes `remaining > 0`; `attempts` is still carried
to index the backend calls. As in Python, the heuristic is evaluated before
the bound check, so its `IndexError` (`none`) can strike even when
`attempts = 2`. The second component counts the continuation backend calls
made. An error reply with a falsy (empty) message passes the
`cont_resp.get("error")` test and then raises `KeyError` at
`cont_resp['message']` — modelled as `none`. -/
def continuation_go (b : Nat → List Message → ChatResult) (recent : List Message) :
    Nat → List Char → Nat → Option (List Char) × Nat
  | 0, ai, _attempts =>
    match is_likely_truncated ai with
    | none => (none, 0)
    | some _ => (some ai, 0)
  | r + 1, ai, attempts =>
    match is_likely_truncated ai with
    | none => (none, 0)
    | some false => (some ai, 0)
    | some true =>
      match b (attempts + 1) (recent ++ [{ role := "user", content := continuationPrompt }]) with
      | .err e => if e = [] then (none, 1) else (some ai, 1)
      | .ok cont =>
        if cont ≠ [] ∧ pyStrip cont ≠ [] then
          ((continuation_go b recent r
              (pyRstrip ai ++ [' '] ++ pyLstrip cont) (attempts + 1)).1,
           (continuation_go b recent r
              (pyRstrip ai ++ [' '] ++ pyLstrip cont) (attempts + 1)).2 + 1)
        else (some ai, 1)

/-- `generate_response` (final.py lines 198-238, soul.py lines 216-256).
Returns the updated conversation history together with the tagged return
value, and, in the second component, the number of continuation backend
calls made during the turn (counted even when the turn ends in an uncaught
exception, which is modelled by `none` in the first component). -/
def generate_response (ollama_available : Bool) (history : List Message)
    (user_input : List Char) (b : Nat → List Message → ChatResult) :
    Option (List Message × GenReturn) × Nat :=
  if ollama_available = false then (some (history, .offline), 0)
  else
    match b 0 (prepare_recent_history (history ++ [{ role := "user", content := user_input }])) with
    | .err e =>
      if e = [] then (none, 0)
      else (some (history ++ [{ role := "user", content := user_input }], .error e), 0)
    | .ok p =>
      match continuation_go b
          (prepare_recent_history (history ++ [{ role := "user", content := user_input }])) 2 p 0 with
      | (none, n) => (none, n)
      | (some r, n) =>
        (some (history ++ [{ role := "user", content := user_input }]
            ++ [{ role := "assistant", content := r }], .reply r), n)

/-- One chat turn for `run_turns`: the user input together with the backend
behaviour the turn will observe. -/
structure Turn where
  input : List Char
  backend : Nat → List Message → ChatResult

/-- A sequence of `generate_response` calls on a shared conversation log, as
performed by the chat tab; the run is `none` unless every call succeeds with
a reply (reaches the final `return ai_response`). -/
def run_turns : List Message → List Turn → Option (List Message)
  | hist, [] => some hist
  | hist, t :: ts =>
    match (generate_response true hist t.input t.backend).1 with
    | some (h2, GenReturn.reply _) => run_turns h2 ts
    | _ => none

/-- Log used to exhibit C1's failing input: the identity message at position
0 (where soul.py line 122 inserts it) followed by seven user messages, so the
identity message is older than the last `MAX_CHAT_CONTEXT_HISTORY = 6`. -/
def c1FailingLog : List Message :=
  SOULBOT_SYSTEM_MESSAGE :: List.replicate 7 { role := "user", content := "hi".toList }

/-- A log of six one-word user messages, used to instantiate the window-bound
theorem. -/
def sixMessageLog : List Message :=
  List.replicate 6 { role := "user", content := "hi".toList }

/-- A backend whose every call fails with error message `a`. -/
def errBackendA : Nat → List Message → ChatResult := fun _ _ => .err ("a".toList)

/-- A backend whose every call fails with error message `b`. -/
def errBackendB : Nat → List Message → ChatResult := fun _ _ => .err ("b".toList)

/-- A 31-character primary reply with no terminal punctuation, so the
truncation heuristic fires on it. -/
def abruptReply : List Char := "Take a deep breath and remember".toList

/-- A continuation that completes the abrupt reply. -/
def finishingReply : List Char := "clear skies again.".toList

/-- A backend that answers the primary request with `abruptReply`, the first
continuation with `finishingReply`, and any further call with empty text. -/
def continuingBackend : Nat → List Message → ChatResult := fun n _ =>
  if n = 0 then .ok abruptReply else if n = 1 then .ok finishingReply else .ok []

/-- A backend that answers the primary request with `abruptReply` and fails
on every continuation request. -/
def failingContinuationBackend : Nat → List Message → ChatResult := fun n _ =>
  if n = 0 then .ok abruptReply else .err ("boom".toList)

/-- A backend that answers the primary request with `abruptReply` and fails
on every continuation request with an empty error message, the payload
`{"error": ""}` whose falsy value slips past `cont_resp.get("error")`. -/
def emptyErrorContinuationBackend : Nat → List Message → ChatResult := fun n _ =>
  if n = 0 then .ok abruptReply else .err []

/-- A single chat turn against a backend that always answers `Hello.`. -/
def helloTurn : Turn :=
  { input := "hi".toList, backend := fun _ _ => .ok ("Hello.".toList) }

/-- `truncate_message` never returns more than `MAX_MESSAGE_CHARS = 800`
characters: an oversized message is cut to `390 + 5 + 390 = 785`. -/
theorem truncate_message_length_le (c : List Char) :
    (truncate_message c).length ≤ 800 := by
  unfold truncate_message MAX_MESSAGE_CHARS
  split
  · omega
  · simp only [List.length_append, List.length_take, List.length_drop, String.length]
    norm_num
    omega

/-- Claim C1: the spec states that a system-role identity message older than
the last `N = 6` entries is prepended to the context window built by
`prepare_recent_history`. The code has no such prepend: on a log whose head
is `SOULBOT_SYSTEM_MESSAGE` followed by seven user messages, the window
contains no system-role message at all, contradicting the code's own comment
that the identity message is inserted at position 0 "so prepare_recent_history
can include it". -/
theorem c1_identity_message_dropped :
    SOULBOT_SYSTEM_MESSAGE ∈ c1FailingLog ∧
    SOULBOT_SYSTEM_MESSAGE.role = "system" ∧
    6 < c1FailingLog.length ∧
    ∀ m ∈ prepare_recent_history c1FailingLog, m.role ≠ "system" := by
  set_option maxRecDepth 4096 in decide

/-- Claim C2: on logs of length ≥ 6, `prepare_recent_history` returns exactly
6 messages, each content at most 800 characters, the window being the last 6
log entries with contents ≤ 800 characters passed through unchanged and
longer contents replaced by their first 390 characters, the marker
`"\n...\n"`, and their last 390 characters (390 = 800/2 − 10). -/
theorem c2_window_bound (hist : List Message) (h : 6 ≤ hist.length) :
    (prepare_recent_history hist).length = 6 ∧
    (∀ m ∈ prepare_recent_history hist, m.content.length ≤ 800) ∧
    prepare_recent_history hist =
      (hist.drop (hist.length - 6)).map (fun m =>
        { role := m.role,
          content := if m.content.length ≤ 800 then m.content
            else m.content.take 390 ++ "\n...\n".toList
              ++ m.content.drop (m.content.length - 390) }) := by
  refine ⟨?_, ?_, ?_⟩
  · simp only [prepare_recent_history, MAX_CHAT_CONTEXT_HISTORY, List.length_map,
      List.length_drop]
    omega
  · intro m hm
    simp only [prepare_recent_history, List.mem_map] at hm
    obtain ⟨m0, _, rfl⟩ := hm
    exact truncate_message_length_le _
  · simp only [prepare_recent_history, MAX_CHAT_CONTEXT_HISTORY]
    refine List.map_congr_left (fun m _ => ?_)
    simp only [truncate_message, MAX_MESSAGE_CHARS]

/-- Witness for `c2_window_bound` at a concrete six-message log. -/
theorem c2_window_bound_witness :
    6 ≤ sixMessageLog.length ∧
    ((prepare_recent_history sixMessageLog).length = 6 ∧
     (∀ m ∈ prepare_recent_history sixMessageLog, m.content.length ≤ 800) ∧
     prepare_recent_history sixMessageLog =
       (sixMessageLog.drop (sixMessageLog.length - 6)).map (fun m =>
         { role := m.role,
           content := if m.content.length ≤ 800 then m.content
             else m.content.take 390 ++ "\n...\n".toList
               ++ m.content.drop (m.content.length - 390) })) :=
  ⟨by decide, c2_window_bound sixMessageLog (by decide)⟩

/-- When the heuristic reports a complete reply, the continuation loop exits
immediately with the accumulated reply and makes no backend call. -/
theorem continuation_go_of_complete (b : Nat → List Message → ChatResult)
    (recent : List Message) (r : Nat) (ai : List Char) (attempts : Nat)
    (h : is_likely_truncated ai = some false) :
    continuation_go b recent (r + 1) ai attempts = (some ai, 0) := by
  simp only [continuation_go, h]

/-- When a continuation backend call fails (with a truthy error payload), the
loop breaks, keeping the accumulated reply, after that single call. -/
theorem continuation_go_of_backend_error (b : Nat → List Message → ChatResult)
    (recent : List Message) (r : Nat) (ai : List Char) (attempts : Nat) (e : List Char)
    (ht : is_likely_truncated ai = some true) (he : e ≠ [])
    (hb : b (attempts + 1) (recent ++ [{ role := "user", content := continuationPrompt }])
      = .err e) :
    continuation_go b recent (r + 1) ai attempts = (some ai, 1) := by
  simp only [continuation_go, ht, hb]
  simp [he]

/-- When the heuristic fires and the continuation call returns non-blank
text, the loop joins it to the accumulated reply with a single space (rstrip
of the old reply, one space, lstrip of the continuation) and iterates. -/
theorem continuation_go_of_continuation (b : Nat → List Message → ChatResult)
    (recent : List Message) (r : Nat) (ai : List Char) (attempts : Nat) (cont : List Char)
    (ht : is_likely_truncated ai = some true)
    (hb : b (attempts + 1) (recent ++ [{ role := "user", content := continuationPrompt }])
      = .ok cont)
    (hcne : cont ≠ []) (hcs : pyStrip cont ≠ []) :
    continuation_go b recent (r + 1) ai attempts
      = ((continuation_go b recent r
            (pyRstrip ai ++ [' '] ++ pyLstrip cont) (attempts + 1)).1,
         (continuation_go b recent r
            (pyRstrip ai ++ [' '] ++ pyLstrip cont) (attempts + 1)).2 + 1) := by
  simp only [continuation_go, ht, hb]
  rw [if_pos ⟨hcne, hcs⟩]

/-- The continuation loop never makes more backend calls than its remaining
budget allows. -/
theorem continuation_go_calls_le (b : Nat → List Message → ChatResult)
    (recent : List Message) :
    ∀ (remaining : Nat) (ai : List Char) (attempts : Nat),
      (continuation_go b recent remaining ai attempts).2 ≤ remaining := by
  intro remaining
  induction remaining with
  | zero =>
    intro ai attempts
    simp only [continuation_go]
    split <;> simp
  | succ r ih =>
    intro ai attempts
    simp only [continuation_go]
    split
    · simp
    · simp
    · split
      · split <;> simp
      · split
        · exact Nat.succ_le_succ (ih _ _)
        · simp

/-- When a turn ends in the final `return ai_response`, the new history is the
old history plus exactly the user message and the assistant reply. -/
theorem generate_response_reply_shape (hist : List Message) (inp : List Char)
    (b : Nat → List Message → ChatResult) (h2 : List Message) (r : List Char)
    (h : (generate_response true hist inp b).1 = some (h2, GenReturn.reply r)) :
    h2 = hist ++ [{ role := "user", content := inp },
                  { role := "assistant", content := r }] := by
  unfold generate_response at h
  split at h
  · simp_all
  · split at h
    · split at h <;> simp_all
    · split at h
      · simp_all
      · simp_all [List.append_assoc]
        obtain ⟨h1, rfl⟩ := h
        exact h1.symm

/-- When the primary backend call fails with a truthy error payload, the turn
returns the tagged error immediately: the user message is appended, no
assistant message is appended, and no continuation call is made. -/
theorem generate_response_primary_error (hist : List Message) (inp e : List Char)
    (b : Nat → List Message → ChatResult) (he : e ≠ [])
    (hb : ∀ ms, b 0 ms = .err e) :
    generate_response true hist inp b
      = (some (hist ++ [{ role := "user", content := inp }], .error e), 0) := by
  simp only [generate_response, hb]
  simp [he]

/-- Claim C3 counterexample: on primary-call failure the returned string is
`"Error: " ++ e`, which varies with the backend's error message and differs
from the fixed offline string — so the claim's "returns a fixed offline
string" is false as stated. -/
theorem c3_error_string_not_fixed :
    (generate_response true [] ("hi".toList) errBackendA).1
      = some ([{ role := "user", content := "hi".toList }], GenReturn.error ("a".toList)) ∧
    (generate_response true [] ("hi".toList) errBackendB).1
      = some ([{ role := "user", content := "hi".toList }], GenReturn.error ("b".toList)) ∧
    (GenReturn.error ("a".toList)).text ≠ (GenReturn.error ("b".toList)).text ∧
    (GenReturn.error ("a".toList)).text ≠ offlineMessage := by
  decide

/-- Claim C3 (amended): when the primary backend call of `generate_response`
fails (with a non-empty error message, the only case in which the Python code
reaches its `return`), the function returns the string `"Error: "` followed
by that error message — not a fixed offline string — issues no continuation
calls, and appends no assistant message to the log (the user message alone is
appended). -/
theorem c3_error_return_on_primary_failure (hist : List Message) (inp e : List Char)
    (b : Nat → List Message → ChatResult) (he : e ≠ [])
    (hb : ∀ ms, b 0 ms = .err e) :
    generate_response true hist inp b
      = (some (hist ++ [{ role := "user", content := inp }], GenReturn.error e), 0) ∧
    (GenReturn.error e).text = "Error: ".toList ++ e :=
  ⟨generate_response_primary_error hist inp e b he hb, rfl⟩

/-- Witness for `c3_error_return_on_primary_failure` at a concrete backend. -/
theorem c3_error_return_on_primary_failure_witness :
    ("a".toList ≠ ([] : List Char)) ∧
    (generate_response true [] ("hi".toList) errBackendA
       = (some ([{ role := "user", content := "hi".toList }],
                GenReturn.error ("a".toList)), 0) ∧
     (GenReturn.error ("a".toList)).text = "Error: ".toList ++ "a".toList) :=
  ⟨by decide,
   c3_error_return_on_primary_failure [] ("hi".toList) ("a".toList) errBackendA
     (by decide) (fun _ => rfl)⟩

/-- Claim C4: for every input and every backend behaviour, a
`generate_response` turn makes at most 2 continuation backend calls. -/
theorem c4_continuation_bound (avail : Bool) (hist : List Message) (inp : List Char)
    (b : Nat → List Message → ChatResult) :
    (generate_response avail hist inp b).2 ≤ 2 := by
  unfold generate_response
  split
  · simp
  · split
    · split <;> simp
    · rename_i p _
      have hle := continuation_go_calls_le b
        (prepare_recent_history (hist ++ [{ role := "user", content := inp }])) 2 p 0
      split <;> simp_all

/-- Claim C5 counterexample: on a 30-character all-whitespace text the code
does not return at all — `text.strip()` is empty, so `s[-1]` raises
`IndexError` (modelled as `none`) — refuting the claim that every text of
length ≥ 30 gets the described boolean. -/
theorem c5_whitespace_crash :
    is_likely_truncated (List.replicate 30 ' ') = none ∧
    ¬∃ bv : Bool, is_likely_truncated (List.replicate 30 ' ') = some bv := by
  decide

/-- Claim C5 (amended): for every text of length ≥ 30 that does not strip to
the empty string, the heuristic returns exactly the claimed boolean: true if
the stripped text ends with ASCII `...` or the Unicode ellipsis, otherwise
false precisely when the last character is sentence-terminal punctuation
(`.`, `!`, `?`, a quotation mark) or a closing bracket `)`, `]`, `}`, and
true in all remaining cases. (Texts of length ≥ 30 that strip to the empty
string instead raise `IndexError`.) -/
theorem c5_truncation_heuristic (t : List Char) (h30 : 30 ≤ t.length)
    (hs : pyStrip t ≠ []) :
    is_likely_truncated t = some (claim_truncation_flag t) := by
  have ht : ¬(t = [] ∨ t.length < 30) := by
    rintro (rfl | hlt)
    · simp at h30
    · omega
  unfold is_likely_truncated claim_truncation_flag
  rw [if_neg ht]
  by_cases he : (asciiEllipsis.isSuffixOf (pyStrip t)
      || [unicodeEllipsis].isSuffixOf (pyStrip t)) = true
  · simp only [he, if_true]
  · rw [Bool.not_eq_true] at he
    simp only [he, Bool.false_eq_true, if_false]
    cases hlast : (pyStrip t).getLast? with
    | none => exact absurd (List.getLast?_eq_none_iff.mp hlast) hs
    | some ch =>
      by_cases hP : ch ∈ sentenceFinalChars
      · simp [hP]
      · by_cases hB : ch ∈ closingBracketChars
        · simp [hP, hB]
        · simp [hP, hB]

/-- Witness for `c5_truncation_heuristic` at a concrete 31-character text. -/
theorem c5_truncation_heuristic_witness :
    30 ≤ abruptReply.length ∧ pyStrip abruptReply ≠ [] ∧
    is_likely_truncated abruptReply = some (claim_truncation_flag abruptReply) :=
  ⟨by decide, by decide, c5_truncation_heuristic _ (by decide) (by decide)⟩

/-- Claim C6 counterexample: `_is_likely_truncated("Wait...")` is false, not
true as claimed — the length-below-30 guard fires before the ellipsis check,
as the claim's own third conjunct requires. -/
theorem c6_wait_not_truncated :
    is_likely_truncated ("Wait...".toList) = some false ∧
    is_likely_truncated ("Wait...".toList) ≠ some true := by
  decide

/-- Claim C6 (amended): `_is_likely_truncated("Hello.")` is false;
`_is_likely_truncated("Wait...")` is false (its length 7 is below the
30-character guard, which dominates the trailing ellipsis); and every text of
length < 30 yields false regardless of its ending. -/
theorem c6_short_text_behaviour :
    is_likely_truncated ("Hello.".toList) = some false ∧
    is_likely_truncated ("Wait...".toList) = some false ∧
    ∀ x : List Char, x.length < 30 → is_likely_truncated x = some false := by
  refine ⟨by decide, by decide, fun x hx => ?_⟩
  unfold is_likely_truncated
  rw [if_pos (Or.inr hx)]

/-- Witness for the universally quantified part of `c6_short_text_behaviour`. -/
theorem c6_short_text_behaviour_witness :
    (['a'] : List Char).length < 30 ∧ is_likely_truncated ['a'] = some false :=
  ⟨by decide, c6_short_text_behaviour.2.2 ['a'] (by decide)⟩

/-- Claim C7: whenever the continuation request returns non-blank text, the
reply is joined as `rstrip(reply) ++ " " ++ lstrip(continuation)` — exactly
one separating space — so a primary reply ending in a letter and a
continuation starting with a letter can never fuse into one word. Stated on
a full turn whose primary reply triggers the heuristic and whose joined
reply is complete. -/
theorem c7_join_with_single_space (hist : List Message) (inp : List Char)
    (b : Nat → List Message → ChatResult) (p c : List Char)
    (hp : ∀ ms, b 0 ms = .ok p) (hc : ∀ ms, b 1 ms = .ok c)
    (ht : is_likely_truncated p = some true)
    (hcs : pyStrip c ≠ [])
    (hj : is_likely_truncated (pyRstrip p ++ [' '] ++ pyLstrip c) = some false) :
    generate_response true hist inp b
      = (some (hist ++ [{ role := "user", content := inp },
                        { role := "assistant",
                          content := pyRstrip p ++ [' '] ++ pyLstrip c }],
               GenReturn.reply (pyRstrip p ++ [' '] ++ pyLstrip c)), 1) := by
  have hcne : c ≠ [] := by
    intro hnil
    subst hnil
    exact hcs rfl
  have s1 : continuation_go b
      (prepare_recent_history (hist ++ [{ role := "user", content := inp }])) 2 p 0
      = ((continuation_go b
            (prepare_recent_history (hist ++ [{ role := "user", content := inp }])) 1
            (pyRstrip p ++ [' '] ++ pyLstrip c) 1).1,
         (continuation_go b
            (prepare_recent_history (hist ++ [{ role := "user", content := inp }])) 1
            (pyRstrip p ++ [' '] ++ pyLstrip c) 1).2 + 1) :=
    continuation_go_of_continuation b _ 1 p 0 c ht (hc _) hcne hcs
  have s2 : continuation_go b
      (prepare_recent_history (hist ++ [{ role := "user", content := inp }])) 1
      (pyRstrip p ++ [' '] ++ pyLstrip c) 1
      = (some (pyRstrip p ++ [' '] ++ pyLstrip c), 0) :=
    continuation_go_of_complete b _ 0 _ 1 hj
  unfold generate_response
  simp only [hp, s1, s2]
  simp [List.append_assoc]

/-- Witness for `c7_join_with_single_space`: the primary reply lacks terminal
punctuation, the continuation completes the sentence, and the final reply is
the two texts joined by exactly one space. -/
theorem c7_join_with_single_space_witness :
    is_likely_truncated abruptReply = some true ∧
    pyStrip finishingReply ≠ [] ∧
    is_likely_truncated (pyRstrip abruptReply ++ [' '] ++ pyLstrip finishingReply)
      = some false ∧
    generate_response true [] ("hi".toList) continuingBackend
      = (some ([{ role := "user", content := "hi".toList },
                { role := "assistant",
                  content := pyRstrip abruptReply ++ [' '] ++ pyLstrip finishingReply }],
               GenReturn.reply (pyRstrip abruptReply ++ [' '] ++ pyLstrip finishingReply)), 1) :=
  ⟨by decide, by decide, by decide,
   c7_join_with_single_space [] ("hi".toList) continuingBackend abruptReply finishingReply
     (fun _ => rfl) (fun _ => rfl) (by decide) (by decide) (by decide)⟩

/-- Claim C8 counterexample: a continuation failure whose error message is
empty refutes the claim as stated. The payload `{"error": ""}` is falsy, so
`cont_resp.get("error")` does not trigger the `break`; the code falls through
to `cont_resp['message']` and raises `KeyError` — the error propagates and
the turn does not complete (`none`): no assistant message is appended and
nothing is returned, even though the failing continuation call was made. -/
theorem c8_empty_error_kills_turn :
    is_likely_truncated abruptReply = some true ∧
    generate_response true [] ("hi".toList) emptyErrorContinuationBackend = (none, 1) := by
  decide

/-- Claim C8 (amended): if a continuation backend call fails with a non-empty
error message, the turn stops retrying after that single call, absorbs the
error, keeps the accumulated reply as-is, appends the assistant message with
that partial reply, and returns it — the result is a normal reply, not an
error. (A continuation failure whose error message is empty instead slips
past the `cont_resp.get("error")` truthiness test and raises `KeyError`,
aborting the turn.) -/
theorem c8_partial_reply_kept (hist : List Message) (inp : List Char)
    (b : Nat → List Message → ChatResult) (p e : List Char)
    (hp : ∀ ms, b 0 ms = .ok p)
    (ht : is_likely_truncated p = some true)
    (he : e ≠ [])
    (hb : ∀ ms, b 1 ms = .err e) :
    generate_response true hist inp b
      = (some (hist ++ [{ role := "user", content := inp },
                        { role := "assistant", content := p }],
               GenReturn.reply p), 1) := by
  have s1 : continuation_go b
      (prepare_recent_history (hist ++ [{ role := "user", content := inp }])) 2 p 0
      = (some p, 1) :=
    continuation_go_of_backend_error b _ 1 p 0 e ht he (hb _)
  unfold generate_response
  simp only [hp, s1]
  simp [List.append_assoc]

/-- Witness for `c8_partial_reply_kept`: the continuation request fails, yet
the turn completes with the unfinished primary reply recorded and returned. -/
theorem c8_partial_reply_kept_witness :
    is_likely_truncated abruptReply = some true ∧
    ("boom".toList ≠ ([] : List Char)) ∧
    generate_response true [] ("hi".toList) failingContinuationBackend
      = (some ([{ role := "user", content := "hi".toList },
                { role := "assistant", content := abruptReply }],
               GenReturn.reply abruptReply), 1) :=
  ⟨by decide, by decide,
   c8_partial_reply_kept [] ("hi".toList) failingContinuationBackend abruptReply
     ("boom".toList) (fun _ => rfl) (by decide) (by decide) (fun _ => rfl)⟩

/-- Claim C9: over any sequence of successful `generate_response` calls the
log is append-only — the starting log is a prefix of the final log — and each
successful call appends exactly two messages (its user message and its
assistant message). -/
theorem c9_append_only : ∀ (ts : List Turn) (hist hist2 : List Message),
    run_turns hist ts = some hist2 →
    hist <+: hist2 ∧ hist2.length = hist.length + 2 * ts.length := by
  intro ts
  induction ts with
  | nil =>
    intro hist hist2 h
    simp only [run_turns, Option.some.injEq] at h
    subst h
    exact ⟨List.prefix_refl _, by simp⟩
  | cons t ts ih =>
    intro hist hist2 h
    simp only [run_turns] at h
    split at h
    · rename_i h2 r heq
      have hshape := generate_response_reply_shape hist t.input t.backend _ _ heq
      obtain ⟨hpre, hlen⟩ := ih _ _ h
      subst hshape
      constructor
      · exact List.IsPrefix.trans (List.prefix_append _ _) hpre
      · simp at hlen ⊢
        omega
    · exact absurd h (by simp)

/-- Witness for `c9_append_only` on a one-turn run. -/
theorem c9_append_only_witness :
    run_turns [] [helloTurn]
      = some [{ role := "user", content := "hi".toList },
              { role := "assistant", content := "Hello.".toList }] ∧
    (([] : List Message) <+:
        [{ role := "user", content := "hi".toList },
         { role := "assistant", content := "Hello.".toList }] ∧
     ([{ role := "user", content := "hi".toList },
       { role := "assistant", content := "Hello.".toList }] : List Message).length
       = ([] : List Message).length + 2 * [helloTurn].length) :=
  ⟨by decide, c9_append_only [helloTurn] [] _ (by decide)⟩

/-- Claim C10: with the availability flag false, `generate_response` returns
the fixed offline string before touching the log — not even the user message
is appended — whereas on a primary-call failure (flag true, backend errors)
the user message has already been appended when the error string is
returned. -/
theorem c10_offline_leaves_log_unchanged :
    (∀ (hist : List Message) (inp : List Char) (b : Nat → List Message → ChatResult),
        generate_response false hist inp b = (some (hist, GenReturn.offline), 0)) ∧
    GenReturn.offline.text = offlineMessage ∧
    (∀ (hist : List Message) (inp e : List Char) (b : Nat → List Message → ChatResult),
        e ≠ [] → (∀ ms, b 0 ms = .err e) →
        (generate_response true hist inp b).1
          = some (hist ++ [{ role := "user", content := inp }], GenReturn.error e)) :=
  ⟨fun _ _ _ => rfl, rfl,
   fun hist inp e b he hb => by rw [generate_response_primary_error hist inp e b he hb]⟩

/-- Witness for `c10_offline_leaves_log_unchanged` at concrete inputs. -/
theorem c10_offline_leaves_log_unchanged_witness :
    generate_response false [] ("hi".toList) errBackendA
      = (some ([], GenReturn.offline), 0) ∧
    (generate_response true [] ("hi".toList) errBackendA).1
      = some ([{ role := "user", content := "hi".toList }], GenReturn.error ("a".toList)) :=
  ⟨c10_offline_leaves_log_unchanged.1 [] ("hi".toList) errBackendA,
   c10_offline_leaves_log_unchanged.2.2 [] ("hi".toList) ("a".toList) errBackendA
     (by decide) (fun _ => rfl)⟩

end Soulbot
